import Mathlib

/-!
Shallow embedding of `src/xbar-plugins/github-review-requests.5m.py`: the
data model (pull-request records, scope configuration, menu lines), the
scope filter `should_include_pr`, the date formatter `parse_date`, the
per-record rendering of the two menu sections, and the `__main__`
orchestration (missing-credential fast path, filtering, rendering).
Network access is modelled by passing the two search result sets as inputs
and reporting the number of outbound calls the run would perform.
-/

/-- A pull-request record as read from the search response
(`data.search.edges[].node`); `labels` is the flattened list of
`labels.nodes[].name`. -/
structure PullRequestRecord where
  repositoryFullName : String
  authorLogin : String
  createdAt : String
  number : Nat
  url : String
  title : String
  labels : List String
deriving Repr, DecidableEq

/-- The module-level configuration constants consumed by the filter and the
renderer (`TARGET_ORGS`, `TARGET_REPOS`, `TARGET_USERS`, `WIP_LABEL`),
passed explicitly instead of as ambient globals. -/
structure ScopeConfig where
  targetOrgs : List String
  targetRepos : List String
  targetUsers : List String
  wipLabel : String
deriving Repr, DecidableEq

/-- One emitted menu line: its text and the keyword attributes passed to
`print_line`, in keyword order. -/
structure MenuLine where
  text : String
  attrs : List (String × String)
deriving Repr, DecidableEq

/-- Embeds `repo_name.split('/')[0]`: the part of the string before the
first `/`, or the whole string when `/` does not occur (Python `split`
always returns at least one piece). -/
def org_of (repo_name : String) : String :=
  String.mk (repo_name.data.takeWhile (fun c => c ≠ '/'))

/-- Embeds `should_include_pr` (source lines 91-111): sequentially rejects
the record when a non-empty target list lacks the organization, the
repository, or the author; otherwise includes it. -/
def should_include_pr (scope : ScopeConfig) (pr : PullRequestRecord) : Bool :=
  let repo_name := pr.repositoryFullName
  let author_name := pr.authorLogin
  let org_name := org_of repo_name
  if !scope.targetOrgs.isEmpty && !scope.targetOrgs.contains org_name then false
  else if !scope.targetRepos.isEmpty && !scope.targetRepos.contains repo_name then false
  else if !scope.targetUsers.isEmpty && !scope.targetUsers.contains author_name then false
  else true

/-- Embeds the filtering comprehensions of source lines 163-164
(`[r['node'] for r in ... if should_include_pr(r['node'])]`), applied to
the already-extracted node records. -/
def scope_filter_apply (scope : ScopeConfig) (records : List PullRequestRecord) :
    List PullRequestRecord :=
  records.filter (fun r => should_include_pr scope r)

/-- Embeds the `colors` dictionary (source lines 85-88); the `title` entry
depends on `DARK_MODE`. -/
def colors (darkMode : Bool) : List (String × String) :=
  [("inactive", "#b4b4b4"),
   ("title", if darkMode then "#ffffff" else "#000000"),
   ("subtitle", "#586069")]

/-- Embeds `colors.get(key)` (and the always-hitting `colors['title']`);
the keys used by the program are always present, so the `"None"` default
(Python would format a missing value as `None`) is never exercised. -/
def colors_get (darkMode : Bool) (key : String) : String :=
  (((colors darkMode).lookup key).getD "None")

/-- Embeds `title.replace('|', '-')`: every `|` character becomes `-`
(single-character pattern, so Python `str.replace` is a character map). -/
def replace_bar (s : String) : String :=
  String.mk (s.data.map (fun c => if c = '|' then '-' else c))

/-- Full month names as produced by `strftime('%B')` in the C locale. -/
def month_name (m : Nat) : String :=
  match m with
  | 1 => "January" | 2 => "February" | 3 => "March" | 4 => "April"
  | 5 => "May" | 6 => "June" | 7 => "July" | 8 => "August"
  | 9 => "September" | 10 => "October" | 11 => "November" | 12 => "December"
  | _ => ""

/-- Two-digit zero padding, as produced by `strftime('%d')`. -/
def pad2 (n : Nat) : String :=
  if n < 10 then "0" ++ toString n else toString n

/-- Python-style split on a single separator character: the list of
maximal separator-free segments, one more segment than separator
occurrences, so never empty. -/
def split_on_char (c : Char) : List Char → List (List Char)
  | [] => [[]]
  | x :: xs =>
    if x = c then [] :: split_on_char c xs
    else
      match split_on_char c xs with
      | [] => [[x]]
      | p :: ps => (x :: p) :: ps

/-- `true` iff the character list is non-empty and all digits. -/
def all_digits (l : List Char) : Bool :=
  !l.isEmpty && l.all (fun c => c.isDigit)

/-- The numeric value of a digit string, as Python `int` reads the
`strptime` fields. -/
def nat_of_digits (l : List Char) : Nat :=
  l.foldl (fun acc c => acc * 10 + (c.toNat - 48)) 0

/-- Embeds `parse_date` (source lines 142-144):
`datetime.strptime(text, '%Y-%m-%dT%H:%M:%SZ')` followed by
`strftime('%B %d, %Y')`.  Returns `none` where `strptime` raises
`ValueError` (text not matching the format); the model validates the field
shapes and the month and day ranges, but not month-specific day maxima or
time-of-day ranges, which no claim exercises. -/
def parse_date (text : String) : Option String :=
  match split_on_char 'T' text.data with
  | [datePart, timePart] =>
    match split_on_char '-' datePart, split_on_char ':' timePart with
    | [y, m, d], [hh, mi, ssz] =>
      if all_digits y && all_digits m && all_digits d &&
          all_digits hh && all_digits mi &&
          (ssz.getLast? == some 'Z') && all_digits ssz.dropLast then
        let mn := nat_of_digits m
        let dn := nat_of_digits d
        if 1 ≤ mn ∧ mn ≤ 12 ∧ 1 ≤ dn ∧ dn ≤ 31 then
          some (month_name mn ++ " " ++ pad2 dn ++ ", " ++ toString (nat_of_digits y))
        else none
      else none
    | _, _ => none
  | _ => none

/-- Embeds `print_line` (source lines 147-149): the keyword attributes are
serialized as space-joined `key=value` tokens after a ` | ` separator, only
when at least one attribute is present. -/
def print_line (l : MenuLine) : String :=
  if l.attrs.isEmpty then l.text
  else l.text ++ " | " ++ String.intercalate " " (l.attrs.map (fun kv => kv.1 ++ "=" ++ kv.2))

/-- Embeds one iteration of the review-requested loop (source lines
175-185): the title line (with `|` escaped), the subtitle line, and a
trailing separator; `none` where `parse_date` would raise on the record's
`createdAt` (in which case the iteration prints nothing). -/
def renderReviewEntry (wipLabel : String) (darkMode : Bool) (pr : PullRequestRecord) :
    Option (List MenuLine) :=
  let labels := pr.labels
  let title := pr.repositoryFullName ++ " - " ++ replace_bar pr.title
  let title_color := colors_get darkMode (if labels.contains wipLabel then "inactive" else "title")
  (parse_date pr.createdAt).map (fun formatted =>
    let subtitle := "#" ++ toString pr.number ++ " opened on " ++ formatted ++
      " by @" ++ pr.authorLogin
    let subtitle_color :=
      colors_get darkMode (if labels.contains wipLabel then "inactive" else "subtitle")
    [⟨title, [("size", "12"), ("color", title_color), ("href", pr.url)]⟩,
     ⟨subtitle, [("size", "10"), ("color", subtitle_color)]⟩,
     ⟨"---", []⟩])

/-- Embeds one iteration of the authored-by-me loop (source lines 192-202),
which duplicates the review-requested loop body verbatim. -/
def renderAuthoredEntry (wipLabel : String) (darkMode : Bool) (pr : PullRequestRecord) :
    Option (List MenuLine) :=
  let labels := pr.labels
  let title := pr.repositoryFullName ++ " - " ++ replace_bar pr.title
  let title_color := colors_get darkMode (if labels.contains wipLabel then "inactive" else "title")
  (parse_date pr.createdAt).map (fun formatted =>
    let subtitle := "#" ++ toString pr.number ++ " opened on " ++ formatted ++
      " by @" ++ pr.authorLogin
    let subtitle_color :=
      colors_get darkMode (if labels.contains wipLabel then "inactive" else "subtitle")
    [⟨title, [("size", "12"), ("color", title_color), ("href", pr.url)]⟩,
     ⟨subtitle, [("size", "10"), ("color", subtitle_color)]⟩,
     ⟨"---", []⟩])

/-- Runs an entry renderer over a list of records, accumulating the lines
printed so far; the Boolean is `false` when an iteration raised (a date
parse failure), in which case iteration stops with the lines already
emitted — mirroring that an uncaught exception aborts the loop after the
previous iterations' output is printed. -/
def render_entries (f : PullRequestRecord → Option (List MenuLine)) :
    List PullRequestRecord → List MenuLine × Bool
  | [] => ([], true)
  | pr :: rest =>
    match f pr with
    | none => ([], false)
    | some e =>
      let r := render_entries f rest
      (e ++ r.1, r.2)

/-- Embeds the review-requested section (source lines 170-185): nothing
for an empty filtered set; otherwise the bold glyph header with the count,
a separator, then the entries. -/
def renderReviewSection (wipLabel : String) (darkMode : Bool)
    (prs : List PullRequestRecord) : List MenuLine × Bool :=
  if prs.isEmpty then ([], true)
  else
    let body := render_entries (renderReviewEntry wipLabel darkMode) prs
    (⟨"👀 Review Requested (" ++ toString prs.length ++ ")",
        [("color", colors_get darkMode "title"), ("font", "Menlo-Bold"), ("size", "13")]⟩ ::
      ⟨"---", []⟩ :: body.1, body.2)

/-- Embeds the authored-by-me section (source lines 187-202). -/
def renderAuthoredSection (wipLabel : String) (darkMode : Bool)
    (prs : List PullRequestRecord) : List MenuLine × Bool :=
  if prs.isEmpty then ([], true)
  else
    let body := render_entries (renderAuthoredEntry wipLabel darkMode) prs
    (⟨"✍️ Created by Me (" ++ toString prs.length ++ ")",
        [("color", colors_get darkMode "title"), ("font", "Menlo-Bold"), ("size", "13")]⟩ ::
      ⟨"---", []⟩ :: body.1, body.2)

/-- Embeds the rendering part of `__main__` (source lines 166-202), taking
the two already-filtered record lists: the `PR: {total}` summary and a
separator, then the two sections.  The Boolean is `false` when rendering
aborted with an uncaught date-parse exception; the lines component still
holds everything printed up to that point. -/
def render (reviewRequested authoredByMe : List PullRequestRecord)
    (wipLabel : String) (darkMode : Bool) : List MenuLine × Bool :=
  let total_count := reviewRequested.length + authoredByMe.length
  let summary := [MenuLine.mk ("PR: " ++ toString total_count) [], MenuLine.mk "---" []]
  let s1 := renderReviewSection wipLabel darkMode reviewRequested
  if s1.2 then
    let s2 := renderAuthoredSection wipLabel darkMode authoredByMe
    (summary ++ s1.1 ++ s2.1, s2.2)
  else
    (summary ++ s1.1, false)

/-- Outcome of one invocation: the lines printed, the process exit status
(0 from `sys.exit(0)` or falling off the end, 1 on an uncaught exception),
and how many outbound network requests were issued. -/
structure RunResult where
  lines : List MenuLine
  exitStatus : Nat
  networkCalls : Nat
deriving Repr, DecidableEq

/-- Embeds `__main__` (source lines 152-202).  The two search result sets
(the `node` records of `edges`, in response order) are inputs; each of the
two searches performs one network request, counted only when the
missing-credential guard does not fire. -/
def run (accessToken githubLogin : String) (scope : ScopeConfig) (darkMode : Bool)
    (reviewEdges authoredEdges : List PullRequestRecord) : RunResult :=
  if accessToken = "" ∨ githubLogin = "" then
    { lines := [⟨"⚠ Github review requests", [("color", "red")]⟩,
                ⟨"---", []⟩,
                ⟨"ACCESS_TOKEN and GITHUB_LOGIN cannot be empty", []⟩],
      exitStatus := 0, networkCalls := 0 }
  else
    let filtered_review_requests := scope_filter_apply scope reviewEdges
    let filtered_authored_prs := scope_filter_apply scope authoredEdges
    let out := render filtered_review_requests filtered_authored_prs scope.wipLabel darkMode
    { lines := out.1, exitStatus := if out.2 then 0 else 1, networkCalls := 2 }

/-- Concrete record for the C3 counterexample: its label list contains the
empty string and the run's WIP label is the empty string. -/
def c3_record : PullRequestRecord :=
  ⟨"acme/widgets", "alice", "2024-03-05T10:00:00Z", 7,
   "https://github.com/acme/widgets/pull/7", "Fix bug", [""]⟩

/-- Concrete record for the C4 counterexample: the repository full name
itself contains a `|` character. -/
def c4_record : PullRequestRecord :=
  ⟨"a|b/c", "alice", "2024-03-05T10:00:00Z", 9,
   "https://example.invalid/pr/9", "x|y", []⟩

/-- Concrete record for the C4 witness: no `|` in the repository name. -/
def c4_witness_record : PullRequestRecord :=
  ⟨"acme/widgets", "alice", "2024-03-05T10:00:00Z", 9,
   "https://example.invalid/pr/9", "x|y", []⟩

/-- The end-to-end record of the C7 test vector. -/
def c7_record : PullRequestRecord :=
  ⟨"acme/widgets", "alice", "2024-03-05T10:00:00Z", 42,
   "https://github.com/acme/widgets/pull/42", "Fix bug", []⟩

/-- A generic concrete record used by witness instantiations. -/
def w_record : PullRequestRecord :=
  ⟨"acme/widgets", "alice", "2024-03-05T10:00:00Z", 42,
   "https://github.com/acme/widgets/pull/42", "Fix bug", []⟩

/-- `C1`: a record passes the scope filter iff each of the three target
lists is empty or contains the respective key (organization derived as the
part of `repositoryFullName` before the first `/`, the full repository
name, the author login); and a `repositoryFullName` without `/` yields an
organization name equal to the whole string.  The filter is a total
function, so it raises no errors. -/
theorem C1_scope_filter_semantics (scope : ScopeConfig) (pr : PullRequestRecord) :
    (should_include_pr scope pr = true ↔
      ((scope.targetOrgs = [] ∨ org_of pr.repositoryFullName ∈ scope.targetOrgs) ∧
       (scope.targetRepos = [] ∨ pr.repositoryFullName ∈ scope.targetRepos) ∧
       (scope.targetUsers = [] ∨ pr.authorLogin ∈ scope.targetUsers))) ∧
    ('/' ∉ pr.repositoryFullName.data →
      org_of pr.repositoryFullName = pr.repositoryFullName) := by
  constructor
  · simp [should_include_pr]
  · intro hno
    unfold org_of
    have : pr.repositoryFullName.data.takeWhile (fun c => c ≠ '/') =
        pr.repositoryFullName.data := by
      apply List.takeWhile_eq_self_iff.mpr
      intro c hc
      simp only [decide_eq_true_eq]
      intro hcl
      exact hno (hcl ▸ hc)
    rw [this]

/-- witness for C1 at a concrete record with no `/` in the repository name -/
theorem C1_scope_filter_semantics_witness :
    (should_include_pr ⟨["acme"], [], [], ""⟩
        ⟨"acmewidgets", "alice", "2024-03-05T10:00:00Z", 42, "u", "t", []⟩ = true ↔
      ((["acme"] = [] ∨ org_of "acmewidgets" ∈ ["acme"]) ∧
       (([] : List String) = [] ∨ "acmewidgets" ∈ ([] : List String)) ∧
       (([] : List String) = [] ∨ "alice" ∈ ([] : List String)))) ∧
    ('/' ∉ "acmewidgets".data → org_of "acmewidgets" = "acmewidgets") :=
  C1_scope_filter_semantics ⟨["acme"], [], [], ""⟩
    ⟨"acmewidgets", "alice", "2024-03-05T10:00:00Z", 42, "u", "t", []⟩

/-- `C2`: with all three target lists empty the scope filter is the
identity on the input sequence, and in general its output is a sublist
(order-preserving stable filter) of its input. -/
theorem C2_scope_filter_identity_and_sublist (scope : ScopeConfig)
    (records : List PullRequestRecord) :
    (scope.targetOrgs = [] → scope.targetRepos = [] → scope.targetUsers = [] →
      scope_filter_apply scope records = records) ∧
    List.Sublist (scope_filter_apply scope records) records := by
  constructor
  · intro h1 h2 h3
    unfold scope_filter_apply
    apply List.filter_eq_self.mpr
    intro pr _
    unfold should_include_pr
    simp [h1, h2, h3]
  · exact List.filter_sublist records

/-- witness for C2: identity on a concrete one-record list under the empty scope -/
theorem C2_scope_filter_identity_and_sublist_witness :
    (scope_filter_apply ⟨[], [], [], ""⟩
        [⟨"acme/widgets", "alice", "2024-03-05T10:00:00Z", 42, "u", "t", []⟩] =
      [⟨"acme/widgets", "alice", "2024-03-05T10:00:00Z", 42, "u", "t", []⟩]) ∧
    List.Sublist
      (scope_filter_apply ⟨[], [], [], ""⟩
        [⟨"acme/widgets", "alice", "2024-03-05T10:00:00Z", 42, "u", "t", []⟩])
      [⟨"acme/widgets", "alice", "2024-03-05T10:00:00Z", 42, "u", "t", []⟩] :=
  ⟨(C2_scope_filter_identity_and_sublist ⟨[], [], [], ""⟩ _).1 rfl rfl rfl,
   (C2_scope_filter_identity_and_sublist ⟨[], [], [], ""⟩ _).2⟩

/-- `C3` counterexample: with `wipLabel = ""` and a record whose label list
contains the empty string, the code de-emphasizes the record (the guard is
plain list membership with no non-emptiness condition), so the title line
does not carry the primary color and the subtitle does not carry the
secondary color, contrary to the claim. -/
theorem C3_counterexample :
    ((renderReviewEntry "" false c3_record).map
        (fun ls => ls.map (fun l => l.attrs.lookup "color")) =
      some [some "#b4b4b4", some "#b4b4b4", none]) ∧
    ¬ ((renderReviewEntry "" false c3_record).map
        (fun ls => ls.map (fun l => l.attrs.lookup "color")) =
      some [some (colors_get false "title"), some (colors_get false "subtitle"), none]) := by
  constructor
  · rfl
  · decide

/-- `C3` (amended): a rendered record is de-emphasized (both lines muted)
exactly when `wipLabel` is a member of its labels — with no non-emptiness
condition on `wipLabel`; otherwise the title line carries the primary-text
color and the subtitle the secondary color.  In particular a record whose
label list contains `""` is de-emphasized when `wipLabel = ""`. -/
theorem C3_wip_deemphasis (wip : String) (dark : Bool) (pr : PullRequestRecord) :
    ((renderReviewEntry wip dark pr).map
        (fun ls => ls.map (fun l => l.attrs.lookup "color")) =
      (parse_date pr.createdAt).map (fun _ =>
        if pr.labels.contains wip then
          [some (colors_get dark "inactive"), some (colors_get dark "inactive"), none]
        else
          [some (colors_get dark "title"), some (colors_get dark "subtitle"), none])) ∧
    ((renderAuthoredEntry wip dark pr).map
        (fun ls => ls.map (fun l => l.attrs.lookup "color")) =
      (parse_date pr.createdAt).map (fun _ =>
        if pr.labels.contains wip then
          [some (colors_get dark "inactive"), some (colors_get dark "inactive"), none]
        else
          [some (colors_get dark "title"), some (colors_get dark "subtitle"), none])) := by
  simp only [renderReviewEntry, renderAuthoredEntry]
  constructor <;> cases parse_date pr.createdAt <;> cases pr.labels.contains wip <;> rfl

/-- `C4` counterexample: the escaping only rewrites the record's title, so
a `|` inside `repositoryFullName` survives into the rendered title line:
for `c4_record` the title contains `|` and so does the emitted title line
text. -/
theorem C4_counterexample :
    c4_record.title.data.contains '|' = true ∧
    ((renderReviewEntry "" false c4_record).map
        (fun ls => ls.map (fun l => l.text.data.contains '|'))) =
      some [true, false, false] := by
  constructor
  · rfl
  · rfl

/-- `C4` (amended): the title line text is
`"{repositoryFullName} - {title}"` with every `|` of the title replaced by
`-`; the escaped title never contains `|`, and whenever
`repositoryFullName` contains no `|` the whole title line contains no
`|`. -/
theorem C4_title_line_escaping (wip : String) (dark : Bool) (pr : PullRequestRecord) :
    ((renderReviewEntry wip dark pr).map (fun ls => (ls.map MenuLine.text).head?) =
      (parse_date pr.createdAt).map
        (fun _ => some (pr.repositoryFullName ++ " - " ++ replace_bar pr.title))) ∧
    '|' ∉ (replace_bar pr.title).data ∧
    ('|' ∉ pr.repositoryFullName.data →
      '|' ∉ (pr.repositoryFullName ++ " - " ++ replace_bar pr.title).data) := by
  have hbar : '|' ∉ (replace_bar pr.title).data := by
    intro hmem
    rcases List.mem_map.mp hmem with ⟨c, _, hc⟩
    by_cases hc' : c = '|'
    · rw [if_pos hc'] at hc
      exact absurd hc (by decide)
    · rw [if_neg hc'] at hc
      exact hc' hc
  refine ⟨?_, hbar, ?_⟩
  · simp only [renderReviewEntry]
    cases parse_date pr.createdAt <;> rfl
  · intro hrepo hmem
    rw [String.data_append, String.data_append] at hmem
    rcases List.mem_append.mp hmem with h | h
    · rcases List.mem_append.mp h with h1 | h1
      · exact hrepo h1
      · exact absurd h1 (by decide)
    · exact hbar h

/-- witness for C4 at a record whose repository name has no bar character -/
theorem C4_title_line_escaping_witness :
    (((renderReviewEntry "" false c4_witness_record).map
        (fun ls => (ls.map MenuLine.text).head?)) =
      (parse_date c4_witness_record.createdAt).map
        (fun _ => some (c4_witness_record.repositoryFullName ++ " - " ++
          replace_bar c4_witness_record.title))) ∧
    '|' ∉ (replace_bar c4_witness_record.title).data ∧
    '|' ∉ (c4_witness_record.repositoryFullName ++ " - " ++
      replace_bar c4_witness_record.title).data :=
  ⟨(C4_title_line_escaping "" false c4_witness_record).1,
   (C4_title_line_escaping "" false c4_witness_record).2.1,
   (C4_title_line_escaping "" false c4_witness_record).2.2 (by decide)⟩

/-- `C5`: whatever the two filtered record lists, the first two emitted
lines are the attribute-free summary `"PR: {total}"` (total = sum of the
two lengths) and a separator; with both lists empty the output is exactly
those two lines. -/
theorem C5_summary_and_empty_menu (rr ab : List PullRequestRecord) (wip : String)
    (dark : Bool) :
    ((render rr ab wip dark).1.take 2 =
      [⟨"PR: " ++ toString (rr.length + ab.length), []⟩, ⟨"---", []⟩]) ∧
    (rr = [] → ab = [] →
      (render rr ab wip dark).1 = [⟨"PR: 0", []⟩, ⟨"---", []⟩]) := by
  constructor
  · simp only [render]
    cases (renderReviewSection wip dark rr).2 <;> simp
  · rintro rfl rfl
    rfl

/-- witness for C5 with both filtered lists empty -/
theorem C5_summary_and_empty_menu_witness :
    ((render [] [] "" false).1.take 2 = [⟨"PR: " ++ toString (0 + 0), []⟩, ⟨"---", []⟩]) ∧
    (render [] [] "" false).1 = [⟨"PR: 0", []⟩, ⟨"---", []⟩] :=
  ⟨(C5_summary_and_empty_menu [] [] "" false).1,
   (C5_summary_and_empty_menu [] [] "" false).2 rfl rfl⟩

/-- `C6`: with an empty access token or an empty login, the run emits
exactly the red warning line, a separator and the explanatory line, makes
no network call, and exits with status 0. -/
theorem C6_missing_credentials (accessToken githubLogin : String) (scope : ScopeConfig)
    (dark : Bool) (reviewEdges authoredEdges : List PullRequestRecord)
    (h : accessToken = "" ∨ githubLogin = "") :
    run accessToken githubLogin scope dark reviewEdges authoredEdges =
      { lines := [⟨"⚠ Github review requests", [("color", "red")]⟩,
                  ⟨"---", []⟩,
                  ⟨"ACCESS_TOKEN and GITHUB_LOGIN cannot be empty", []⟩],
        exitStatus := 0, networkCalls := 0 } := by
  unfold run
  rw [if_pos h]

/-- witness for C6 with an empty access token -/
theorem C6_missing_credentials_witness :
    run "" "alice" ⟨[], [], [], ""⟩ false [w_record] [] =
      { lines := [⟨"⚠ Github review requests", [("color", "red")]⟩,
                  ⟨"---", []⟩,
                  ⟨"ACCESS_TOKEN and GITHUB_LOGIN cannot be empty", []⟩],
        exitStatus := 0, networkCalls := 0 } :=
  C6_missing_credentials "" "alice" ⟨[], [], [], ""⟩ false [w_record] [] (Or.inl rfl)

/-- `C7`: the end-to-end test vector — one review-requested record for
`acme/widgets` number 42 by alice created 2024-03-05, empty target sets —
produces exactly the seven listed line texts, the subtitle date rendered
as `March 05, 2024`. -/
theorem C7_end_to_end :
    ((run "token" "alice" ⟨[], [], [], ""⟩ false [c7_record] []).lines).map MenuLine.text =
      ["PR: 1", "---", "👀 Review Requested (1)", "---",
       "acme/widgets - Fix bug", "#42 opened on March 05, 2024 by @alice", "---"] := by
  rfl

/-- `C8`: rendering is deterministic and pure in its inputs — equal
filtered record lists, equal scope configuration and equal dark-mode flag
produce identical serialized line sequences, attribute tokens included. -/
theorem C8_render_pure (rr₁ rr₂ ab₁ ab₂ : List PullRequestRecord)
    (scope₁ scope₂ : ScopeConfig) (dark₁ dark₂ : Bool)
    (h₁ : rr₁ = rr₂) (h₂ : ab₁ = ab₂) (h₃ : scope₁ = scope₂) (h₄ : dark₁ = dark₂) :
    (render rr₁ ab₁ scope₁.wipLabel dark₁).1.map print_line =
      (render rr₂ ab₂ scope₂.wipLabel dark₂).1.map print_line := by
  subst h₁
  subst h₂
  subst h₃
  subst h₄
  rfl

/-- witness for C8 at concrete equal inputs -/
theorem C8_render_pure_witness :
    (render [w_record] [] (ScopeConfig.mk [] [] [] "").wipLabel false).1.map print_line =
      (render [w_record] [] (ScopeConfig.mk [] [] [] "").wipLabel false).1.map print_line :=
  C8_render_pure [w_record] [w_record] [] [] ⟨[], [], [], ""⟩ ⟨[], [], [], ""⟩ false false
    rfl rfl rfl rfl

/-- `C9`: whenever an entry renders (in either section), its title line
carries `href` equal to the record's url and size 12, its subtitle line
carries no `href` and size 10, and the trailing separator carries
neither. -/
theorem C9_href_and_sizes (wip : String) (dark : Bool) (pr : PullRequestRecord) :
    ((renderReviewEntry wip dark pr).map
        (fun ls => ls.map (fun l => (l.attrs.lookup "href", l.attrs.lookup "size"))) =
      (parse_date pr.createdAt).map
        (fun _ => [(some pr.url, some "12"), ((none : Option String), some "10"),
                   ((none : Option String), (none : Option String))])) ∧
    ((renderAuthoredEntry wip dark pr).map
        (fun ls => ls.map (fun l => (l.attrs.lookup "href", l.attrs.lookup "size"))) =
      (parse_date pr.createdAt).map
        (fun _ => [(some pr.url, some "12"), ((none : Option String), some "10"),
                   ((none : Option String), (none : Option String))])) := by
  simp only [renderReviewEntry, renderAuthoredEntry]
  constructor <;> cases parse_date pr.createdAt <;> rfl

/-- `C10`: the two duplicated per-entry loop bodies are the same function
of (record, wipLabel, darkMode); the sections agree on everything past the
header line, the header attributes coincide, and the abort flags agree —
the sections differ only in their header text. -/
theorem C10_sections_agree (wip : String) (dark : Bool) (pr : PullRequestRecord)
    (prs : List PullRequestRecord) :
    renderReviewEntry wip dark pr = renderAuthoredEntry wip dark pr ∧
    (renderReviewSection wip dark prs).1.drop 1 =
      (renderAuthoredSection wip dark prs).1.drop 1 ∧
    (renderReviewSection wip dark prs).1.head?.map MenuLine.attrs =
      (renderAuthoredSection wip dark prs).1.head?.map MenuLine.attrs ∧
    (renderReviewSection wip dark prs).2 = (renderAuthoredSection wip dark prs).2 := by
  have hent : renderReviewEntry wip dark = renderAuthoredEntry wip dark := by
    funext q
    rfl
  refine ⟨rfl, ?_, ?_, ?_⟩ <;>
    (simp only [renderReviewSection, renderAuthoredSection, hent]
     cases prs.isEmpty <;> rfl)
